import Mathlib

set_option autoImplicit false

/-!
Verification development for the Furbank ERP work-tracking core.

The definitions below are a shallow embedding of the TypeScript sources:
  - src/lib/supabase/types.ts                (enums and row shapes)
  - src/lib/rbac/permissions.ts              (capability table)
  - src/lib/services/taskProgressService.ts  (addProgressLog)
  - src/lib/services/taskReviewService.ts    (requestReview, approveTask, requestChanges)
  - src/pages/TaskDetail.tsx                 (render guards gating each mutating control)
  - src/hooks/useRealtimeTasks.ts            (realtime reconciliation fold)
  - projectService.ts closure cascade        (modelled from the spec; see the doc comments)

Asynchronous supabase calls are flattened: a network mutation is modelled on
its success path (the remote store accepting the write), timestamps are passed
in as parameters, and relation-hydration fetches are an explicit environment of
deterministic lookup functions.
-/

namespace FurbankErp

/-- TaskStatus enum from types.ts (the revision used by useRealtimeTasks.ts,
which also has the CLOSED member). -/
inductive TaskStatus where
  | TO_DO
  | IN_PROGRESS
  | BLOCKED
  | DONE
  | CLOSED
deriving DecidableEq, Repr

/-- TaskReviewStatus enum from types.ts. The revision imported by the services
names the second member WAITING_FOR_REVIEW; the revision used by the current
TaskDetail page names the same review state PENDING_REVIEW and adds
UNDER_REVIEW. One inductive covers both spellings of the same value. -/
inductive TaskReviewStatus where
  | NONE
  | PENDING_REVIEW
  | UNDER_REVIEW
  | REVIEWED_APPROVED
  | CHANGES_REQUESTED
deriving DecidableEq, Repr

/-- ProjectStatus enum from types.ts plus the CLOSED member used by
ProjectDetail.tsx. -/
inductive ProjectStatus where
  | ACTIVE
  | CLOSED
  | COMPLETED
  | ARCHIVED
deriving DecidableEq, Repr

/-- The closed_reason column values compared against the string literal
project_closed in ProjectDetail.tsx and TaskDetail. -/
inductive ClosedReason where
  | manual
  | project_closed
deriving DecidableEq, Repr

/-- Permissions interface from src/lib/rbac/permissions.ts. -/
structure Permissions where
  canViewAllProjects : Bool
  canCreateProjects : Bool
  canEditProjects : Bool
  canDeleteProjects : Bool
  canViewAllTasks : Bool
  canCreateTasks : Bool
  canEditTasks : Bool
  canAssignTasks : Bool
  canDeleteTasks : Bool
  canAddComments : Bool
  canDeleteComments : Bool
  canAddNotes : Bool
  canUploadFiles : Bool
  canUpdateTaskStatus : Bool
  canRequestReview : Bool
  canReviewTasks : Bool
  canViewAllUsers : Bool
  canManageUsers : Bool
  canViewReports : Bool
deriving DecidableEq, Repr

/-- The SUPER_ADMIN capability row of getPermissions, latest revision in the
snapshot of permissions.ts (the table stating that tasks are immutable after
creation even for a Super Admin). -/
def superAdminPermissions : Permissions :=
  { canViewAllProjects := true
  , canCreateProjects := true
  , canEditProjects := true
  , canDeleteProjects := true
  , canViewAllTasks := true
  , canCreateTasks := true
  , canEditTasks := false
  , canAssignTasks := true
  , canDeleteTasks := false
  , canAddComments := true
  , canDeleteComments := true
  , canAddNotes := true
  , canUploadFiles := true
  , canUpdateTaskStatus := true
  , canRequestReview := true
  , canReviewTasks := true
  , canViewAllUsers := true
  , canManageUsers := false
  , canViewReports := true }

/-- The ADMIN capability row of getPermissions, latest revision. -/
def adminPermissions : Permissions :=
  { canViewAllProjects := true
  , canCreateProjects := true
  , canEditProjects := true
  , canDeleteProjects := false
  , canViewAllTasks := true
  , canCreateTasks := true
  , canEditTasks := false
  , canAssignTasks := true
  , canDeleteTasks := false
  , canAddComments := true
  , canDeleteComments := true
  , canAddNotes := true
  , canUploadFiles := true
  , canUpdateTaskStatus := true
  , canRequestReview := true
  , canReviewTasks := false
  , canViewAllUsers := true
  , canManageUsers := false
  , canViewReports := false }

/-- The USER capability row of getPermissions, latest revision; this row is
also the default branch of the switch. -/
def userPermissions : Permissions :=
  { canViewAllProjects := true
  , canCreateProjects := false
  , canEditProjects := false
  , canDeleteProjects := false
  , canViewAllTasks := true
  , canCreateTasks := false
  , canEditTasks := false
  , canAssignTasks := false
  , canDeleteTasks := false
  , canAddComments := true
  , canDeleteComments := false
  , canAddNotes := true
  , canUploadFiles := true
  , canUpdateTaskStatus := true
  , canRequestReview := true
  , canReviewTasks := false
  , canViewAllUsers := false
  , canManageUsers := false
  , canViewReports := false }

/-- getPermissions from permissions.ts: a switch on the role-name string
(null allowed), with the USER case and the default case sharing one body.
The role-name strings come from the UserRole enum in types.ts. -/
def getPermissions : Option String → Permissions
  | some "super_admin" => superAdminPermissions
  | some "admin" => adminPermissions
  | _ => userPermissions

/-- A tasks-table row restricted to the columns the service layer reads or
writes (types.ts tasks Row). -/
structure ServiceTask where
  id : String
  project_id : Option String
  status : TaskStatus
  review_status : Option TaskReviewStatus
  review_requested_by : Option String
  reviewed_by : Option String
  reviewed_at : Option String
  review_comments : Option String
  closed_at : Option String
  closed_reason : Option ClosedReason
deriving DecidableEq, Repr

/-- The shape of the JS Error objects the services return. -/
structure JsError where
  message : String
deriving DecidableEq, Repr

/-- A progress-log row inserted by addProgressLog (taskProgressService.ts). -/
structure ProgressLogRow where
  task_id : String
  user_id : String
  status : TaskStatus
  progress_note : Option String
  created_by : Option String
deriving DecidableEq, Repr

/-- The tasks table keyed by id, as seen through single-row reads and
update ... eq(id, taskId) writes. -/
def TasksTable : Type := String → Option ServiceTask

/-- The slice of the remote store the task services touch. -/
structure ServiceDB where
  tasks : TasksTable
  task_progress_log : List ProgressLogRow

/-- The supabase update({...}).eq(id, taskId) pattern: rewrite the row with
the given id, leave every other row alone. -/
def updateTaskRow (db : TasksTable) (taskId : String) (f : ServiceTask → ServiceTask) :
    TasksTable :=
  fun key => if key = taskId then (db key).map f else db key

/-- addProgressLog from taskProgressService.ts lines 22-58: update the task
status, then append an immutable progress-log row. There is no closed-task
check anywhere in the function; on the success path the error is null. The
best-effort pieces (none here) and server-side timestamps are outside the
returned columns we track. -/
def addProgressLog (db : ServiceDB) (taskId userId : String) (status : TaskStatus)
    (progressNote : Option String) : Option JsError × ServiceDB :=
  ( none
  , { tasks := updateTaskRow db.tasks taskId (fun t => { t with status := status })
    , task_progress_log :=
        db.task_progress_log ++
          [{ task_id := taskId, user_id := userId, status := status
           , progress_note := progressNote, created_by := some userId }] } )

/-- requestReview from taskReviewService.ts lines 12-46: unconditionally set
review_status to the waiting/pending review value and record the requester,
then fire a best-effort notification whose failure is logged and never
propagated. No assignee, state, or closure check appears in the function. -/
def requestReview (db : ServiceDB) (taskId userId : String) :
    Option JsError × ServiceDB :=
  ( none
  , { db with tasks := updateTaskRow db.tasks taskId (fun t =>
        { t with review_status := some TaskReviewStatus.PENDING_REVIEW
               , review_requested_by := some userId }) } )

/-- approveTask from taskReviewService.ts lines 51-89: unconditionally set
review_status to REVIEWED_APPROVED with reviewer metadata; comments are
optional (null when absent). No current-state check appears in the function. -/
def approveTask (db : ServiceDB) (taskId userId : String) (comments : Option String)
    (now : String) : Option JsError × ServiceDB :=
  ( none
  , { db with tasks := updateTaskRow db.tasks taskId (fun t =>
        { t with review_status := some TaskReviewStatus.REVIEWED_APPROVED
               , reviewed_by := some userId
               , reviewed_at := some now
               , review_comments := comments }) } )

/-- requestChanges from taskReviewService.ts lines 94-136: reject blank or
whitespace-only comments with a validation error before any write, otherwise
unconditionally set review_status to CHANGES_REQUESTED with reviewer
metadata. The blank test mirrors the JS test
(falsy string, or trim().length === 0). -/
def requestChanges (db : ServiceDB) (taskId userId : String) (comments : String)
    (now : String) : Option JsError × ServiceDB :=
  if comments.isEmpty || comments.trim.isEmpty then
    (some { message := "Comments are required when requesting changes" }, db)
  else
    ( none
    , { db with tasks := updateTaskRow db.tasks taskId (fun t =>
          { t with review_status := some TaskReviewStatus.CHANGES_REQUESTED
                 , reviewed_by := some userId
                 , reviewed_at := some now
                 , review_comments := some comments }) } )

/-- Modelled from the spec: isTaskClosed lives in projectService.ts, which is
not part of the snapshot (only its callers are). Spec section 3 defines a
closed task as one whose closedAt field is set. -/
def isTaskClosed (t : ServiceTask) : Bool :=
  t.closed_at.isSome

/-- The render guard shared by the comment box, the note box, and the file
upload control in TaskDetail (the current revision): shown only on a
non-closed task, to an assigned user or a super_admin role. -/
def closedGatedInteractionShown (taskIsClosed isUserAssignedToTask : Bool)
    (role : Option String) : Bool :=
  !taskIsClosed && (isUserAssignedToTask || role == some "super_admin")

/-- The render guard of the status editor in TaskDetail: the select is offered
only with the canUpdateTaskStatus capability, to an assigned user, on a
non-closed task. -/
def statusEditorShown (perms : Permissions) (isUserAssignedToTask taskIsClosed : Bool) :
    Bool :=
  perms.canUpdateTaskStatus && isUserAssignedToTask && !taskIsClosed

/-- The render guard of the Request Review button in TaskDetail: a
non-reviewer with canRequestReview, on a non-closed task they are assigned to,
and only while review_status is NONE, null, or CHANGES_REQUESTED. -/
def requestReviewButtonShown (perms : Permissions) (taskIsClosed isUserAssignedToTask : Bool)
    (reviewStatus : Option TaskReviewStatus) : Bool :=
  perms.canRequestReview && !perms.canReviewTasks && !taskIsClosed &&
    isUserAssignedToTask &&
    (reviewStatus == some TaskReviewStatus.NONE || reviewStatus == none ||
      reviewStatus == some TaskReviewStatus.CHANGES_REQUESTED)

/-- The render guard of the Approve and Request Changes buttons in TaskDetail:
a reviewer, and review_status exactly PENDING_REVIEW. Note the guard does not
consult closure. -/
def reviewActionsShown (perms : Permissions) (reviewStatus : Option TaskReviewStatus) :
    Bool :=
  perms.canReviewTasks && reviewStatus == some TaskReviewStatus.PENDING_REVIEW

/-- Modelled from the spec: the per-task effect of closeProject in
projectService.ts, which is not part of the snapshot (only its callers in
ProjectDetail.tsx are). Spec section 4.2: closing a project sets closedAt and
closedReason = project_closed on every child task that is not already
closed. -/
def closeTaskForProject (projectId now : String) (t : ServiceTask) : ServiceTask :=
  if t.project_id == some projectId && t.closed_at == none then
    { t with closed_at := some now, closed_reason := some ClosedReason.project_closed }
  else t

/-- Modelled from the spec: the closeProject cascade applied to the task
table as one pure batch (all-or-nothing from the caller). -/
def closeProjectCascade (projectId now : String) (tasks : List ServiceTask) :
    List ServiceTask :=
  tasks.map (closeTaskForProject projectId now)

/-- Modelled from the spec: the per-task effect of reopenProject in
projectService.ts (not in the snapshot). Spec section 4.2: reopening clears
closure only on tasks whose closedReason is project_closed. -/
def reopenTaskForProject (projectId : String) (t : ServiceTask) : ServiceTask :=
  if t.project_id == some projectId &&
      t.closed_reason == some ClosedReason.project_closed then
    { t with closed_at := none, closed_reason := none }
  else t

/-- Modelled from the spec: the reopenProject cascade as one pure batch. -/
def reopenProjectCascade (projectId : String) (tasks : List ServiceTask) :
    List ServiceTask :=
  tasks.map (reopenTaskForProject projectId)

/-- A tasks-table row as delivered in a realtime payload, restricted to the
columns useRealtimeTasks.ts reads; title stands for the remaining scalar
columns carried along by the spreads. -/
structure TaskRow where
  id : String
  status : TaskStatus
  review_status : Option TaskReviewStatus
  project_id : Option String
  assigned_to : Option String
  title : String
deriving DecidableEq, Repr

/-- A projects row as returned by the relation-hydration fetch. -/
structure ProjectRow where
  id : String
  name : String
  status : ProjectStatus
deriving DecidableEq, Repr

/-- A users row (with its role joined) as returned by the relation-hydration
fetch. -/
structure UserRow where
  id : String
  full_name : String
  role_name : Option String
deriving DecidableEq, Repr

/-- TaskWithRelations from useRealtimeTasks.ts: the row extended with the
hydrated parent project and assigned user, either possibly null. -/
structure TaskWithRelations where
  fields : TaskRow
  projects : Option ProjectRow
  assigned_user : Option UserRow
deriving DecidableEq, Repr

/-- The values the status member of TaskFilters ranges over in
useRealtimeTasks.ts. -/
inductive StatusFilter where
  | closed
  | to_do
  | in_progress
  | blocked
  | done
  | due_today
  | overdue
deriving DecidableEq, Repr

/-- TaskFilters from useRealtimeTasks.ts. projectId and assignedTo only feed
the subscription filter string (the server delivers only matching rows); the
event callback itself consults status and reviewStatus. -/
structure TaskFilters where
  status : Option StatusFilter
  reviewStatus : Option TaskReviewStatus
  projectId : Option String
  assignedTo : Option String
deriving DecidableEq, Repr

/-- One branch of the matchesFilter if-chain in the event callback: the
due_today and overdue values have no branch there, so they impose no
constraint on an event row. -/
def matchesStatusFilter (f : StatusFilter) (s : TaskStatus) : Bool :=
  match f with
  | StatusFilter.closed => s == TaskStatus.CLOSED
  | StatusFilter.to_do => s == TaskStatus.TO_DO
  | StatusFilter.in_progress => s == TaskStatus.IN_PROGRESS
  | StatusFilter.blocked => s == TaskStatus.BLOCKED
  | StatusFilter.done => s == TaskStatus.DONE
  | StatusFilter.due_today => true
  | StatusFilter.overdue => true

/-- The matchesFilter computation performed identically in the INSERT and
UPDATE branches of the callback in useRealtimeTasks.ts. -/
def matchesFilter (filters : Option TaskFilters) (t : TaskRow) : Bool :=
  match filters with
  | none => true
  | some fs =>
    (match fs.status with
     | none => true
     | some f => matchesStatusFilter f t.status) &&
    (match fs.reviewStatus with
     | none => true
     | some rs => t.review_status == some rs)

/-- The relation-hydration environment: the single-row fetches against the
projects and users tables, deterministic per id, returning no row when the
fetch fails or the row is absent (a supabase error response resolves the
data field to null). -/
structure HydrationEnv where
  fetchProject : String → Option ProjectRow
  fetchUser : String → Option UserRow

/-- The project half of the parallel hydration Promise.all: fetch when the
row carries a project_id, resolve null otherwise. -/
def hydrateProject (env : HydrationEnv) (t : TaskRow) : Option ProjectRow :=
  match t.project_id with
  | some pid => env.fetchProject pid
  | none => none

/-- The user half of the parallel hydration Promise.all. -/
def hydrateUser (env : HydrationEnv) (t : TaskRow) : Option UserRow :=
  match t.assigned_to with
  | some uid => env.fetchUser uid
  | none => none

/-- A realtime change event as delivered to the callback: payload.new for
INSERT and UPDATE, payload.old for DELETE. -/
inductive ChangeEvent where
  | insert (newRow : TaskRow)
  | update (newRow : TaskRow)
  | delete (oldRow : TaskRow)
deriving DecidableEq, Repr

/-- The relation-preserving ternary in the UPDATE merge of
useRealtimeTasks.ts: keep the already-hydrated relation when the foreign key
is present and the relation exists, null it when the key is present but the
relation is absent, keep it when the key is absent. -/
def preserveRelation {α : Type} (fkPresent : Bool) (existingRel : Option α) :
    Option α :=
  if fkPresent && existingRel.isSome then existingRel
  else if fkPresent then none
  else existingRel

/-- The in-place merge of an UPDATE payload into the existing entry: the
spread overwrites every scalar column with the payload row, and each relation
goes through the preserving ternary keyed on its foreign key. -/
def mergeIntoExisting (existing : TaskWithRelations) (u : TaskRow) :
    TaskWithRelations :=
  { fields := u
  , projects := preserveRelation u.project_id.isSome existing.projects
  , assigned_user := preserveRelation u.assigned_to.isSome existing.assigned_user }

/-- The findIndex >= 0 presence test on the collection. -/
def hasTaskId (k : String) (s : List TaskWithRelations) : Bool :=
  s.any (fun t => t.fields.id == k)

/-- The findIndex-then-set-at-that-index write of the UPDATE branch: rewrite
the first entry whose id matches, leave the rest untouched. -/
def updateFirstById (k : String) (f : TaskWithRelations → TaskWithRelations) :
    List TaskWithRelations → List TaskWithRelations
  | [] => []
  | x :: xs =>
    if x.fields.id == k then f x :: xs else x :: updateFirstById k f xs

/-- The event callback of useRealtimeTasks.ts as a pure fold step, with the
asynchronous hydration Promise.all flattened into the environment lookups and
the setTasks functional updates applied to the current collection.
  - INSERT: when the row passes the filter, hydrate both relations, then
    insert at the head unless the id is already present.
  - UPDATE: when present, merge in place if the merged row still matches,
    remove it otherwise; when absent and matching, hydrate (when a foreign
    key is present) and insert at the head with a duplicate re-check.
  - DELETE: remove by id unconditionally. -/
def applyEvent (env : HydrationEnv) (filters : Option TaskFilters)
    (state : List TaskWithRelations) : ChangeEvent → List TaskWithRelations
  | ChangeEvent.insert newRow =>
    if matchesFilter filters newRow then
      if hasTaskId newRow.id state then state
      else
        { fields := newRow
        , projects := hydrateProject env newRow
        , assigned_user := hydrateUser env newRow } :: state
    else state
  | ChangeEvent.update u =>
    if hasTaskId u.id state then
      if matchesFilter filters u then
        updateFirstById u.id (fun existing => mergeIntoExisting existing u) state
      else
        state.filter (fun t => !(t.fields.id == u.id))
    else
      if matchesFilter filters u then
        if u.project_id.isSome || u.assigned_to.isSome then
          if hasTaskId u.id state then state
          else
            { fields := u
            , projects := hydrateProject env u
            , assigned_user := hydrateUser env u } :: state
        else
          { fields := u, projects := none, assigned_user := none } :: state
      else state
  | ChangeEvent.delete oldRow =>
    state.filter (fun t => !(t.fields.id == oldRow.id))

/-! Concrete inputs used by the witnesses and counterexamples. -/

/-- A manually closed task, used to exercise the closed-task claims. -/
def sampleClosedTask : ServiceTask :=
  { id := "t1", project_id := some "p1", status := TaskStatus.TO_DO
  , review_status := some TaskReviewStatus.NONE, review_requested_by := none
  , reviewed_by := none, reviewed_at := none, review_comments := none
  , closed_at := some "2024-01-01T00:00:00Z"
  , closed_reason := some ClosedReason.manual }

/-- A store holding only the closed sample task. -/
def closedTaskDB : ServiceDB :=
  { tasks := fun key => if key = "t1" then some sampleClosedTask else none
  , task_progress_log := [] }

/-- An open task whose review state is NONE, used to exercise the review
claims. -/
def reviewNoneTask : ServiceTask :=
  { id := "t2", project_id := none, status := TaskStatus.DONE
  , review_status := some TaskReviewStatus.NONE, review_requested_by := none
  , reviewed_by := none, reviewed_at := none, review_comments := none
  , closed_at := none, closed_reason := none }

/-- A store holding only the NONE-review sample task. -/
def reviewNoneDB : ServiceDB :=
  { tasks := fun key => if key = "t2" then some reviewNoneTask else none
  , task_progress_log := [] }

/-- An already approved task, used to exercise the requestReview claim. -/
def reviewApprovedTask : ServiceTask :=
  { id := "t3", project_id := none, status := TaskStatus.DONE
  , review_status := some TaskReviewStatus.REVIEWED_APPROVED
  , review_requested_by := some "u2", reviewed_by := some "u9"
  , reviewed_at := some "2024-03-03T00:00:00Z", review_comments := none
  , closed_at := none, closed_reason := none }

/-- A store holding only the approved sample task. -/
def reviewApprovedDB : ServiceDB :=
  { tasks := fun key => if key = "t3" then some reviewApprovedTask else none
  , task_progress_log := [] }

/-- An open child task of project p1, used to exercise the closure cascade. -/
def openChildTask : ServiceTask :=
  { id := "t4", project_id := some "p1", status := TaskStatus.TO_DO
  , review_status := none, review_requested_by := none
  , reviewed_by := none, reviewed_at := none, review_comments := none
  , closed_at := none, closed_reason := none }

/-- A hydration environment in which every relation fetch fails. -/
def failingHydrationEnv : HydrationEnv :=
  { fetchProject := fun _ => none, fetchUser := fun _ => none }

/-- An insert payload carrying both foreign keys, so both hydration fetches
run (and fail) for it. -/
def orphanInsertRow : TaskRow :=
  { id := "t7", status := TaskStatus.DONE
  , review_status := some TaskReviewStatus.NONE
  , project_id := some "p7", assigned_to := some "u7"
  , title := "row whose relations cannot be hydrated" }

/-! Theorems. -/

/-- C8: getPermissions is pure, total, and deterministic. Two calls with the
same role name are identical, and every role name, null and unknown strings
included, maps to one of the three fully populated capability tables, so the
function depends on nothing beyond the role name. -/
theorem getPermissions_pure_total :
    ∀ roleName : Option String,
      getPermissions roleName = getPermissions roleName ∧
      (getPermissions roleName = superAdminPermissions ∨
       getPermissions roleName = adminPermissions ∨
       getPermissions roleName = userPermissions) := by
  intro r
  refine ⟨rfl, ?_⟩
  unfold getPermissions
  split
  · exact Or.inl rfl
  · exact Or.inr (Or.inl rfl)
  · exact Or.inr (Or.inr rfl)

/-- C9: capabilities do not grow monotonically with seniority. In the
capability table, the SuperAdmin role has no more ability to edit a task
after creation than the User role: canEditTasks is false for both. -/
theorem superAdmin_no_extra_task_editing :
    (getPermissions (some "super_admin")).canEditTasks =
      (getPermissions (some "user")).canEditTasks ∧
    (getPermissions (some "super_admin")).canEditTasks = false := by
  exact ⟨rfl, rfl⟩

/-- C10: any role name outside the three known ones, null included, falls
through the switch default and receives exactly the User (staff) table,
which grants the staff interaction capabilities rather than an empty set. -/
theorem getPermissions_unknown_role_defaults_to_staff :
    ∀ roleName : Option String,
      roleName ≠ some "super_admin" → roleName ≠ some "admin" →
      roleName ≠ some "user" →
      getPermissions roleName = userPermissions ∧
      (getPermissions roleName).canAddComments = true ∧
      (getPermissions roleName).canAddNotes = true ∧
      (getPermissions roleName).canUploadFiles = true ∧
      (getPermissions roleName).canRequestReview = true ∧
      (getPermissions roleName).canUpdateTaskStatus = true := by
  intro r h1 h2 _h3
  have hmain : getPermissions r = userPermissions := by
    unfold getPermissions
    split
    · exact absurd rfl h1
    · exact absurd rfl h2
    · rfl
  rw [hmain]
  exact ⟨rfl, rfl, rfl, rfl, rfl, rfl⟩

/-- Witness for C10 at the concrete unknown role name consultant. -/
theorem getPermissions_unknown_role_defaults_to_staff_witness :
    getPermissions (some "consultant") = userPermissions ∧
    (getPermissions (some "consultant")).canAddComments = true ∧
    (getPermissions (some "consultant")).canAddNotes = true ∧
    (getPermissions (some "consultant")).canUploadFiles = true ∧
    (getPermissions (some "consultant")).canRequestReview = true ∧
    (getPermissions (some "consultant")).canUpdateTaskStatus = true :=
  getPermissions_unknown_role_defaults_to_staff (some "consultant")
    (by decide) (by decide) (by decide)

/-- C4: requestChanges with an empty or whitespace-only comment returns the
validation error before any write; the store comes back untouched. -/
theorem requestChanges_blank_comment_rejected :
    ∀ (db : ServiceDB) (taskId userId comments now : String),
      comments = "" ∨ comments.trim = "" →
      requestChanges db taskId userId comments now =
        (some { message := "Comments are required when requesting changes" }, db) := by
  intro db tid uid c now h
  have hb : (c.isEmpty || c.trim.isEmpty) = true := by
    rcases h with h | h
    · subst h; rfl
    · rw [h]
      simp [String.isEmpty]
  unfold requestChanges
  rw [hb]
  simp

/-- Witness for C4 at an empty comment string. -/
theorem requestChanges_blank_comment_rejected_witness :
    requestChanges reviewNoneDB "t2" "u9" "" "2024-02-02T00:00:00Z" =
      (some { message := "Comments are required when requesting changes" },
        reviewNoneDB) :=
  requestChanges_blank_comment_rejected reviewNoneDB "t2" "u9" "" "2024-02-02T00:00:00Z"
    (Or.inl rfl)

/-- C1 (amended): closed-task protection is enforced at the page boundary,
not inside the services. Once closedAt is set, the TaskDetail render guards
withhold the comment, note, and file controls, the status editor, and the
Request Review button, for every permission set, role, assignment flag, and
review state. The services themselves perform no closedAt check (see the
counterexample), and the approve and request-changes controls are gated only
on reviewStatus, not on closure. -/
theorem closed_task_controls_withheld :
    ∀ (t : ServiceTask) (perms : Permissions) (role : Option String)
      (isUserAssignedToTask : Bool) (reviewStatus : Option TaskReviewStatus),
      isTaskClosed t = true →
      closedGatedInteractionShown (isTaskClosed t) isUserAssignedToTask role = false ∧
      statusEditorShown perms isUserAssignedToTask (isTaskClosed t) = false ∧
      requestReviewButtonShown perms (isTaskClosed t) isUserAssignedToTask
        reviewStatus = false := by
  intro t perms role assigned rs h
  rw [h]
  refine ⟨?_, ?_, ?_⟩
  · simp [closedGatedInteractionShown]
  · simp [statusEditorShown]
  · simp [requestReviewButtonShown]

/-- Witness for C1 at the concrete closed sample task. -/
theorem closed_task_controls_withheld_witness :
    closedGatedInteractionShown (isTaskClosed sampleClosedTask) true
      (some "super_admin") = false ∧
    statusEditorShown superAdminPermissions true (isTaskClosed sampleClosedTask) = false ∧
    requestReviewButtonShown superAdminPermissions (isTaskClosed sampleClosedTask) true
      (some TaskReviewStatus.NONE) = false :=
  closed_task_controls_withheld sampleClosedTask superAdminPermissions
    (some "super_admin") true (some TaskReviewStatus.NONE) (by decide)

/-- Counterexample for C1 as stated: addProgressLog invoked on the closed
sample task reports no error and rewrites the task status, so a core
mutating operation on a task with closedAt set neither fails nor leaves the
fields unchanged. -/
theorem addProgressLog_mutates_closed_task :
    isTaskClosed sampleClosedTask = true ∧
    (addProgressLog closedTaskDB "t1" "u1" TaskStatus.DONE none).1 = none ∧
    (addProgressLog closedTaskDB "t1" "u1" TaskStatus.DONE none).2.tasks "t1" =
      some { sampleClosedTask with status := TaskStatus.DONE } ∧
    (addProgressLog closedTaskDB "t1" "u1" TaskStatus.DONE none).2.tasks "t1" ≠
      closedTaskDB.tasks "t1" := by
  refine ⟨rfl, rfl, ?_, ?_⟩
  · simp [addProgressLog, updateTaskRow, closedTaskDB]
  · simp [addProgressLog, updateTaskRow, closedTaskDB]
    decide

/-- C2 (spec-modelled): the closure cascade is one pure batch over the task
table. Closing a project stamps closedAt and closedReason = project_closed on
an open child task and leaves an already-closed task untouched; reopening
restores a cascade-closed child to its original open record, while a
manually closed task is untouched by both directions. -/
theorem project_closure_cascade_spec :
    ∀ (projectId now : String) (tasks : List ServiceTask)
      (child manualTask : ServiceTask),
      child.project_id = some projectId →
      child.closed_at = none →
      child.closed_reason = none →
      manualTask.closed_reason = some ClosedReason.manual →
      closeProjectCascade projectId now tasks =
        tasks.map (closeTaskForProject projectId now) ∧
      reopenProjectCascade projectId tasks =
        tasks.map (reopenTaskForProject projectId) ∧
      closeTaskForProject projectId now child =
        { child with closed_at := some now
                   , closed_reason := some ClosedReason.project_closed } ∧
      reopenTaskForProject projectId (closeTaskForProject projectId now child) = child ∧
      reopenTaskForProject projectId manualTask = manualTask := by
  intro pid now tasks child manual hpid hopen hreason hman
  have hclose : closeTaskForProject pid now child =
      { child with closed_at := some now
                 , closed_reason := some ClosedReason.project_closed } := by
    unfold closeTaskForProject
    rw [hpid, hopen]
    simp
  refine ⟨rfl, rfl, hclose, ?_, ?_⟩
  · rw [hclose]
    unfold reopenTaskForProject
    cases child
    simp_all
  · unfold reopenTaskForProject
    rw [hman]
    simp

/-- Witness for C2: the cascade closes the open child of p1 and leaves the
manually closed task alone, and reopening restores the child. -/
theorem project_closure_cascade_spec_witness :
    closeProjectCascade "p1" "2024-05-05T00:00:00Z" [openChildTask, sampleClosedTask] =
      [openChildTask, sampleClosedTask].map
        (closeTaskForProject "p1" "2024-05-05T00:00:00Z") ∧
    reopenProjectCascade "p1" [openChildTask, sampleClosedTask] =
      [openChildTask, sampleClosedTask].map (reopenTaskForProject "p1") ∧
    closeTaskForProject "p1" "2024-05-05T00:00:00Z" openChildTask =
      { openChildTask with closed_at := some "2024-05-05T00:00:00Z"
                         , closed_reason := some ClosedReason.project_closed } ∧
    reopenTaskForProject "p1"
      (closeTaskForProject "p1" "2024-05-05T00:00:00Z" openChildTask) = openChildTask ∧
    reopenTaskForProject "p1" sampleClosedTask = sampleClosedTask :=
  project_closure_cascade_spec "p1" "2024-05-05T00:00:00Z"
    [openChildTask, sampleClosedTask] openChildTask sampleClosedTask
    rfl rfl rfl rfl

/-- C3 (amended): the only-from-PendingReview rule is enforced by the
TaskDetail render guard, which withholds the Approve and Request Changes
buttons whenever reviewStatus differs from PendingReview; approveTask itself
performs no state check and, whatever the stored state, reports success and
overwrites the review fields of the addressed row. -/
theorem review_actions_state_gated :
    ∀ (perms : Permissions) (reviewStatus : Option TaskReviewStatus)
      (db : ServiceDB) (taskId userId : String) (comments : Option String)
      (now : String),
      reviewStatus ≠ some TaskReviewStatus.PENDING_REVIEW →
      reviewActionsShown perms reviewStatus = false ∧
      (approveTask db taskId userId comments now).1 = none ∧
      (approveTask db taskId userId comments now).2.tasks taskId =
        (db.tasks taskId).map (fun t =>
          { t with review_status := some TaskReviewStatus.REVIEWED_APPROVED
                 , reviewed_by := some userId
                 , reviewed_at := some now
                 , review_comments := comments }) := by
  intro perms rs db tid uid c now h
  refine ⟨?_, rfl, ?_⟩
  · simp [reviewActionsShown, h]
  · simp [approveTask, updateTaskRow]

/-- Witness for C3 at the concrete NONE-review state. -/
theorem review_actions_state_gated_witness :
    reviewActionsShown superAdminPermissions (some TaskReviewStatus.NONE) = false ∧
    (approveTask reviewNoneDB "t2" "u9" none "2024-02-02T00:00:00Z").1 = none ∧
    (approveTask reviewNoneDB "t2" "u9" none "2024-02-02T00:00:00Z").2.tasks "t2" =
      (reviewNoneDB.tasks "t2").map (fun t =>
        { t with review_status := some TaskReviewStatus.REVIEWED_APPROVED
               , reviewed_by := some "u9"
               , reviewed_at := some "2024-02-02T00:00:00Z"
               , review_comments := none }) :=
  review_actions_state_gated superAdminPermissions (some TaskReviewStatus.NONE)
    reviewNoneDB "t2" "u9" none "2024-02-02T00:00:00Z" (by decide)

/-- Counterexample for C3 as stated: approveTask called while the stored
review state is NONE, not PendingReview, reports no error and changes the
review fields of the task. -/
theorem approveTask_ignores_review_state :
    reviewNoneTask.review_status = some TaskReviewStatus.NONE ∧
    (approveTask reviewNoneDB "t2" "u9" none "2024-02-02T00:00:00Z").1 = none ∧
    (approveTask reviewNoneDB "t2" "u9" none "2024-02-02T00:00:00Z").2.tasks "t2" ≠
      reviewNoneDB.tasks "t2" := by
  refine ⟨rfl, rfl, ?_⟩
  simp [approveTask, updateTaskRow, reviewNoneDB]
  decide

/-- C5 (amended): requestReview itself is unconditional. It reports success
and rewrites the addressed row to reviewStatus = PendingReview with
reviewRequestedBy = actor, whatever the stored state and with no assignee
information at all; the assignee and state preconditions exist only in the
TaskDetail render guard, which offers the Request Review button exactly to a
non-reviewer holding canRequestReview, assigned to a non-closed task whose
review state is None, null, or ChangesRequested. -/
theorem requestReview_unconditional_and_gated :
    ∀ (db : ServiceDB) (taskId userId : String) (perms : Permissions)
      (taskIsClosed isUserAssignedToTask : Bool)
      (reviewStatus : Option TaskReviewStatus),
      (requestReview db taskId userId).1 = none ∧
      (requestReview db taskId userId).2.tasks taskId =
        (db.tasks taskId).map (fun t =>
          { t with review_status := some TaskReviewStatus.PENDING_REVIEW
                 , review_requested_by := some userId }) ∧
      (requestReviewButtonShown perms taskIsClosed isUserAssignedToTask
          reviewStatus = true ↔
        (perms.canRequestReview = true ∧ perms.canReviewTasks = false ∧
         taskIsClosed = false ∧ isUserAssignedToTask = true ∧
         (reviewStatus = some TaskReviewStatus.NONE ∨ reviewStatus = none ∨
          reviewStatus = some TaskReviewStatus.CHANGES_REQUESTED))) := by
  intro db tid uid perms closed assigned rs
  refine ⟨rfl, ?_, ?_⟩
  · simp [requestReview, updateTaskRow]
  · simp [requestReviewButtonShown, Bool.and_eq_true, Bool.or_eq_true,
      Bool.not_eq_true']
    tauto

/-- Counterexample for C5 as stated: requestReview called on a task that is
already ReviewedApproved, a state in which the claim requires rejection,
reports no error and moves the task back to PendingReview. -/
theorem requestReview_ignores_state_and_assignees :
    reviewApprovedTask.review_status = some TaskReviewStatus.REVIEWED_APPROVED ∧
    (requestReview reviewApprovedDB "t3" "u5").1 = none ∧
    (requestReview reviewApprovedDB "t3" "u5").2.tasks "t3" =
      some { reviewApprovedTask with
               review_status := some TaskReviewStatus.PENDING_REVIEW
             , review_requested_by := some "u5" } ∧
    (requestReview reviewApprovedDB "t3" "u5").2.tasks "t3" ≠
      reviewApprovedDB.tasks "t3" := by
  refine ⟨rfl, rfl, ?_, ?_⟩
  · simp [requestReview, updateTaskRow, reviewApprovedDB]
  · simp [requestReview, updateTaskRow, reviewApprovedDB]
    decide

/-- The relation-preserving ternary of the merge is the identity on the
stored relation: in every combination of foreign-key presence and existing
relation it hands back the existing value. -/
theorem preserveRelation_eq_self {α : Type} (fkPresent : Bool) (rel : Option α) :
    preserveRelation fkPresent rel = rel := by
  cases fkPresent <;> cases rel <;> rfl

/-- Merging the same payload twice in place is the same as merging it once. -/
theorem mergeIntoExisting_self (existing : TaskWithRelations) (u : TaskRow) :
    mergeIntoExisting (mergeIntoExisting existing u) u = mergeIntoExisting existing u := by
  simp [mergeIntoExisting, preserveRelation_eq_self]

/-- Merging a payload into an entry already carrying exactly that payload
row changes nothing. -/
theorem mergeIntoExisting_same_fields (u : TaskRow) (p : Option ProjectRow)
    (a : Option UserRow) :
    mergeIntoExisting { fields := u, projects := p, assigned_user := a } u =
      { fields := u, projects := p, assigned_user := a } := by
  simp [mergeIntoExisting, preserveRelation_eq_self]

/-- An entry built from a row sits at the head, so the presence test on its
id succeeds. -/
theorem hasTaskId_cons_self (r : TaskRow) (p : Option ProjectRow) (a : Option UserRow)
    (s : List TaskWithRelations) :
    hasTaskId r.id ({ fields := r, projects := p, assigned_user := a } :: s) = true := by
  simp [hasTaskId]

/-- Rewriting the first matching entry with a function that keeps the id
keeps the presence test positive. -/
theorem hasTaskId_updateFirstById (k : String)
    (f : TaskWithRelations → TaskWithRelations)
    (hid : ∀ x, (f x).fields.id = k) :
    ∀ s : List TaskWithRelations,
      hasTaskId k s = true → hasTaskId k (updateFirstById k f s) = true := by
  intro s
  induction s with
  | nil => intro h; exact h
  | cons x xs ih =>
    intro h
    cases hx : (x.fields.id == k) with
    | true => simp [updateFirstById, hx, hasTaskId, hid]
    | false =>
      have hxs : hasTaskId k xs = true := by
        simpa [hasTaskId, hx] using h
      have hstep : updateFirstById k f (x :: xs) = x :: updateFirstById k f xs := by
        simp [updateFirstById, hx]
      rw [hstep]
      have hcons : hasTaskId k (x :: updateFirstById k f xs) =
          (x.fields.id == k || hasTaskId k (updateFirstById k f xs)) := rfl
      rw [hcons, hx, ih hxs]
      rfl

/-- Rewriting the first matching entry twice with an idempotent,
id-preserving function is the same as rewriting once. -/
theorem updateFirstById_idem (k : String)
    (f : TaskWithRelations → TaskWithRelations)
    (hid : ∀ x, (f x).fields.id = k)
    (hf : ∀ x, f (f x) = f x) :
    ∀ s : List TaskWithRelations,
      updateFirstById k f (updateFirstById k f s) = updateFirstById k f s := by
  intro s
  induction s with
  | nil => rfl
  | cons x xs ih =>
    cases hx : (x.fields.id == k) with
    | true => simp [updateFirstById, hx, hid, hf]
    | false => simp [updateFirstById, hx, ih]

/-- After dropping every entry with a given id the presence test on that id
fails. -/
theorem hasTaskId_filter_ne (k : String) :
    ∀ s : List TaskWithRelations,
      hasTaskId k (s.filter (fun t => !(t.fields.id == k))) = false := by
  intro s
  induction s with
  | nil => rfl
  | cons x xs ih =>
    cases hx : (x.fields.id == k) with
    | true => simpa [List.filter_cons, hx] using ih
    | false => simp [List.filter_cons, hx, hasTaskId] at ih ⊢

/-- Dropping every entry with a given id twice is the same as dropping
once. -/
theorem filter_ne_taskId_idem (k : String) :
    ∀ s : List TaskWithRelations,
      ((s.filter (fun t => !(t.fields.id == k))).filter
          (fun t => !(t.fields.id == k))) =
        s.filter (fun t => !(t.fields.id == k)) := by
  intro s
  induction s with
  | nil => rfl
  | cons x xs ih =>
    cases hx : (x.fields.id == k) with
    | true => simp only [List.filter_cons, hx, Bool.not_true]; exact ih
    | false => simp [List.filter_cons, hx, ih]

/-- C6: the event application of the synchronizer is idempotent. For every
hydration environment, view filter, collection state, and change event,
applying the same event twice produces exactly the collection produced by
applying it once, so no duplicate entry appears and no removed entry comes
back. -/
theorem applyEvent_idempotent :
    ∀ (env : HydrationEnv) (filters : Option TaskFilters)
      (state : List TaskWithRelations) (e : ChangeEvent),
      applyEvent env filters (applyEvent env filters state e) e =
        applyEvent env filters state e := by
  intro env filters s e
  cases e with
  | insert r =>
    cases hm : matchesFilter filters r with
    | false => simp [applyEvent, hm]
    | true =>
      cases hp : hasTaskId r.id s with
      | true => simp [applyEvent, hm, hp]
      | false =>
        simp [applyEvent, hm, hp, hasTaskId_cons_self]
  | update u =>
    cases hp : hasTaskId u.id s with
    | true =>
      cases hm : matchesFilter filters u with
      | true =>
        have hid : ∀ x, ((fun ex => mergeIntoExisting ex u) x).fields.id = u.id :=
          fun _ => rfl
        have h1 : hasTaskId u.id
            (updateFirstById u.id (fun ex => mergeIntoExisting ex u) s) = true :=
          hasTaskId_updateFirstById u.id _ hid s hp
        simp only [applyEvent, hp, hm, if_true, h1]
        exact updateFirstById_idem u.id _ hid (fun x => mergeIntoExisting_self x u) s
      | false =>
        have h1 : hasTaskId u.id (s.filter fun t => !(t.fields.id == u.id)) = false :=
          hasTaskId_filter_ne u.id s
        simp [applyEvent, hp, hm, h1]
    | false =>
      cases hm : matchesFilter filters u with
      | false => simp [applyEvent, hp, hm]
      | true =>
        cases hk : (u.project_id.isSome || u.assigned_to.isSome) with
        | true =>
          simp only [applyEvent, hp, hm, hk]
          simp [hasTaskId_cons_self, updateFirstById, mergeIntoExisting_same_fields]
        | false =>
          simp only [applyEvent, hp, hm, hk]
          simp [hasTaskId_cons_self, updateFirstById, mergeIntoExisting_same_fields]
  | delete o =>
    simp only [applyEvent]
    exact filter_ne_taskId_idem o.id s

/-- C7 (amended): for an insert whose row passes the filter and whose id is
absent, the synchronizer always inserts the row at the head, attaching
whatever each relation fetch returned; a failed fetch resolves to null and
degrades the entry to a null relation field instead of suppressing the
insert. -/
theorem insert_keeps_row_with_hydration_results :
    ∀ (env : HydrationEnv) (filters : Option TaskFilters)
      (state : List TaskWithRelations) (r : TaskRow),
      matchesFilter filters r = true →
      hasTaskId r.id state = false →
      applyEvent env filters state (ChangeEvent.insert r) =
        { fields := r, projects := hydrateProject env r
        , assigned_user := hydrateUser env r } :: state := by
  intro env filters s r hm hp
  simp [applyEvent, hm, hp]

/-- Witness for C7 at the concrete failing environment and orphan row. -/
theorem insert_keeps_row_with_hydration_results_witness :
    applyEvent failingHydrationEnv none [] (ChangeEvent.insert orphanInsertRow) =
      [{ fields := orphanInsertRow
       , projects := hydrateProject failingHydrationEnv orphanInsertRow
       , assigned_user := hydrateUser failingHydrationEnv orphanInsertRow }] :=
  insert_keeps_row_with_hydration_results failingHydrationEnv none [] orphanInsertRow
    rfl rfl

/-- Counterexample for C7 as stated: both relation fetches fail for the
orphan row, yet the insert is not skipped; the collection goes from empty to
holding the row with null relations. -/
theorem insert_not_skipped_on_failed_hydration :
    failingHydrationEnv.fetchProject "p7" = none ∧
    failingHydrationEnv.fetchUser "u7" = none ∧
    applyEvent failingHydrationEnv none [] (ChangeEvent.insert orphanInsertRow) =
      [{ fields := orphanInsertRow, projects := none, assigned_user := none }] ∧
    ([{ fields := orphanInsertRow, projects := none, assigned_user := none }] :
        List TaskWithRelations) ≠ [] := by
  refine ⟨rfl, rfl, rfl, by decide⟩

end FurbankErp
